import Mathlib

/-!
Shallow embedding of the V-Translator server (`server_main.py`): the
language profile table, the temporary-media lifecycle of the `/recognize`
handler, the recognition orchestration, and the LibreTranslate failover
client, together with theorems about them.
-/

namespace VTranslator

/-- Language profile: the recognition-engine code and the translation
source/target codes.  Mirrors the per-tag dictionaries of `LANG_MAP`
in `server_main.py`. -/
structure LangCfg where
  whisper : String
  libre_src : String
  libre_tgt : String
deriving DecidableEq

/-- The `LANG_MAP` table of `server_main.py` (lines 39-42), as an
association list in source order. -/
def LANG_MAP : List (String × LangCfg) :=
  [("vn", ⟨"vi", "vi", "zh"⟩), ("cn", ⟨"zh", "zh", "vi"⟩)]

/-- Outcome of one `res.json()` call on a backend response: either the
body fails to parse (the call raises, caught by the blanket handler) or
it parses to a JSON object whose optional `translatedText` field is
recorded. -/
inductive Body where
  | malformed : Body
  | json (translatedText : Option String) : Body
deriving DecidableEq

/-- Outcome of one `client.post(url, json=payload)` attempt: either the
request itself raises (timeout, connection error, ...) or the backend
answers with a status code and a body. -/
inductive HttpResult where
  | exn : HttpResult
  | resp (status : Nat) (body : Body) : HttpResult
deriving DecidableEq

/-- The JSON payload posted to every backend (`server_main.py` lines
108-114). -/
structure Payload where
  q : String
  source : String
  target : String
  format : String
  api_key : String
deriving DecidableEq

/-- Builds the payload exactly as `translate` does: query text, source
and target codes, `format: "text"` and an empty `api_key`. -/
def mkPayload (text src tgt : String) : Payload :=
  ⟨text, src, tgt, "text", ""⟩

/-- The ordered endpoint list tried by `translate` (lines 103-107). -/
def servers : List String :=
  ["https://libretranslate.com/translate",
   "https://translate.argosopentech.com/translate",
   "https://libretranslate.de/translate"]

/-- The degraded fallback string built at line 124:
`f"[翻译服务暂时不可用] {text}"`. -/
def degradedMarker (text : String) : String :=
  "[翻译服务暂时不可用] " ++ text

/-- One iteration of the failover loop body (lines 117-123) for a given
world `w` assigning an `HttpResult` to each posted request: `none` means
the attempt produced no `return` (an exception was swallowed by the
`except` clause, or the status was not 200) and the loop continues;
`some t` means the attempt returned `t`.  On a 200 response whose body
parses, the code returns `data.get("translatedText", text)`: the field
when present, otherwise the original text. -/
def attemptResult (w : Payload → String → HttpResult) (p : Payload)
    (url : String) : Option String :=
  match w p url with
  | HttpResult.exn => none
  | HttpResult.resp status body =>
    if status = 200 then
      match body with
      | Body.malformed => none
      | Body.json tt => some (tt.getD p.q)
    else none

/-- The failover loop of `translate` over an endpoint list, returning
the resulting string together with the list of endpoints actually
contacted, in order (the second component is instrumentation for the
sequential-trial property; the first component is the value the Python
function returns).  Exhausting the list yields the degraded marker
string of line 124. -/
def translateRun (w : Payload → String → HttpResult) (p : Payload) :
    List String → String × List String
  | [] => (degradedMarker p.q, [])
  | url :: rest =>
    match attemptResult w p url with
    | some t => (t, [url])
    | none =>
      let r := translateRun w p rest
      (r.1, url :: r.2)

/-- `translate(text, src, tgt)` of `server_main.py` (lines 100-124):
posts `mkPayload text src tgt` to the fixed `servers` list in order and
returns the first successful attempt, else the degraded marker. -/
def translate (w : Payload → String → HttpResult)
    (text src tgt : String) : String :=
  (translateRun w (mkPayload text src tgt) servers).1

/-- Last index of character `c` in a character list, mirroring Python
`str.rfind` (which returns -1 when absent; here `none`). -/
def lastIdxOf (c : Char) : List Char → Option Nat
  | [] => none
  | x :: xs =>
    match lastIdxOf c xs with
    | some i => some (i + 1)
    | none => if x = c then some 0 else none

/-- `os.path.splitext` on POSIX (CPython `genericpath._splitext` with
`sep = '/'`, `extsep = '.'`): split at the last dot that lies after the
last slash and is preceded, within the basename, by at least one
non-dot character; otherwise the extension is empty. -/
def splitext (p : List Char) : List Char × List Char :=
  let sepIndex : Int := match lastIdxOf '/' p with
    | some i => (i : Int)
    | none => -1
  let dotIndex : Int := match lastIdxOf '.' p with
    | some i => (i : Int)
    | none => -1
  if sepIndex < dotIndex then
    let d := dotIndex.toNat
    let start := (sepIndex + 1).toNat
    if (List.range (d - start)).any
        (fun k => p.get? (start + k) != some '.') then
      (p.take d, p.drop d)
    else (p, [])
  else (p, [])

/-- The effective filename: `audio.filename or "audio.wav"` (line 63);
a missing or empty (falsy) filename is replaced by `"audio.wav"`. -/
def effName (filename : Option String) : String :=
  match filename with
  | none => "audio.wav"
  | some s => if s = "" then "audio.wav" else s

/-- The temporary-file suffix of line 63:
`os.path.splitext(audio.filename or "audio.wav")[1] or ".wav"`. -/
def tmpSuffix (filename : Option String) : String :=
  let ext := (splitext (effName filename).toList).2
  if ext.isEmpty then ".wav" else String.mk ext

/-- Outcomes the `/recognize` handler can produce: a JSON 200 body
`{recognized, translated, error}` or an `HTTPException(status, detail)`. -/
inductive Response where
  | success (recognized translated : String) (error : Option String) : Response
  | httpError (status : Nat) (detail : String) : Response
deriving DecidableEq

/-- HTTP status of a handler outcome (a plain dict return is a 200). -/
def statusOf : Response → Nat
  | Response.success _ _ _ => 200
  | Response.httpError s _ => s

/-- Observable side effects of one `/recognize` request: whether a
temporary file was ever created, whether it still exists once the
request completes, the suffix it was created with, whether `translate`
was invoked, and which backend endpoints were contacted. -/
structure RecognizeTrace where
  tempCreated : Bool
  tempExists : Bool
  tempSuffix : Option String
  translateCalled : Bool
  contacted : List String
deriving DecidableEq

/-- `tempfile.NamedTemporaryFile(delete=False, ...)` (line 64): the
temporary file exists after acquisition. -/
def acquireTemp (_fs : Bool) : Bool := true

/-- `os.unlink(tmp_path)` in the `finally` clause (line 97): the
temporary file is gone afterwards. -/
def unlinkTemp (_fs : Bool) : Bool := false

/-- The detail message of the 400 response at line 58 (quote marks
around the two tags elided from the literal). -/
def badLangMsg : String := "src_lang 必须是 vn 或 cn"

/-- The informational error message of the no-speech 200 response at
line 79. -/
def noSpeechMsg : String := "未能识别语音"

/-- Python `str.strip()` with no argument: remove leading and trailing
whitespace characters. -/
def pyStrip (s : String) : String :=
  String.mk
    (((s.toList.dropWhile Char.isWhitespace).reverse.dropWhile
        Char.isWhitespace).reverse)

/-- The `except Exception` clause at lines 94-95: a value returned by
the `try` body passes through, an exception becomes
`HTTPException(500, str(e))`. -/
def exceptTo500 : Except String Response → Response
  | Except.ok r => r
  | Except.error e => Response.httpError 500 e

/-- The body of the `try` block (lines 69-92): transcribe with the
profile language (`transcribe` is the opaque Whisper capability,
returning the recognized text or raising a detail string), strip it,
answer the no-speech response on empty text, otherwise translate and
answer the full response.  Also returns whether `translate` was called
and the endpoints it contacted. -/
def tryBody (cfg : LangCfg) (transcribe : String → Except String String)
    (w : Payload → String → HttpResult) :
    Except String Response × Bool × List String :=
  match transcribe cfg.whisper with
  | Except.error e => (Except.error e, false, [])
  | Except.ok raw =>
    let recognized_text := pyStrip raw
    if recognized_text = "" then
      (Except.ok (Response.success "" "" (some noSpeechMsg)), false, [])
    else
      let r := translateRun w
        (mkPayload recognized_text cfg.libre_src cfg.libre_tgt) servers
      (Except.ok (Response.success recognized_text r.1 none), true, r.2)

/-- The `/recognize` handler (lines 53-97): validate the tag (400 before
any file is created), acquire the temporary file with the derived
suffix, run the `try` body, turn an exception into a 500, and unlink
the temporary file in `finally` on every path out of the `try`. -/
def recognize (src_lang : String) (filename : Option String)
    (transcribe : String → Except String String)
    (w : Payload → String → HttpResult) : Response × RecognizeTrace :=
  match List.lookup src_lang LANG_MAP with
  | none => (Response.httpError 400 badLangMsg, ⟨false, false, none, false, []⟩)
  | some cfg =>
    let fs := acquireTemp false
    let r := tryBody cfg transcribe w
    let fs2 := unlinkTemp fs
    (exceptTo500 r.1, ⟨fs, fs2, some (tmpSuffix filename), r.2.1, r.2.2⟩)

/-- Inversion: an attempt that returns a value did so from a 200
response with a parsed body, and the value is the `translatedText`
field or, when that field is absent, the original query text. -/
theorem attemptResult_eq_some (w : Payload → String → HttpResult)
    (p : Payload) (url : String) (t : String)
    (h : attemptResult w p url = some t) :
    ∃ tt : Option String,
      w p url = HttpResult.resp 200 (Body.json tt) ∧ t = tt.getD p.q := by
  unfold attemptResult at h
  cases hw : w p url with
  | exn => rw [hw] at h; exact absurd h (by simp)
  | resp s b =>
    rw [hw] at h
    by_cases hs : s = 200
    · subst hs
      cases b with
      | malformed => simp at h
      | json tt =>
        simp only [if_pos rfl] at h
        exact ⟨tt, rfl, by simpa using h.symm⟩
    · simp [hs] at h

/-- When every endpoint of a list fails, the loop returns the degraded
marker and has contacted every endpoint, in order. -/
theorem translateRun_all_fail (w : Payload → String → HttpResult)
    (p : Payload) :
    ∀ ss : List String, (∀ url ∈ ss, attemptResult w p url = none) →
      translateRun w p ss = (degradedMarker p.q, ss) := by
  intro ss
  induction ss with
  | nil => intro _; rfl
  | cons u rest ih =>
    intro h
    have hu : attemptResult w p u = none := h u (by simp)
    have hr := ih (fun url hm => h url (by simp [hm]))
    simp [translateRun, hu, hr]

/-- A world in which the first endpoint answers 200 with a parsed JSON
body that has no `translatedText` field, while every other endpoint
would answer a genuine translation. -/
def c1World : Payload → String → HttpResult := fun _ url =>
  if url = "https://libretranslate.com/translate" then
    HttpResult.resp 200 (Body.json none)
  else
    HttpResult.resp 200 (Body.json (some "xin chao"))

/-- C1 (counterexample): with the first endpoint answering 200 but with
the translated-text field missing from its (well-formed) body, the
client does not proceed to the next endpoint: it returns the original
text `"hola"` at once, contacting only the first endpoint — even though
the second endpoint would have answered the genuine translation
`"xin chao"`.  So a missing response field is neither swallowed nor
skipped, and a partial result (the untranslated original) is surfaced
for that attempt, contradicting the claim. -/
theorem missing_field_surfaces_original :
    translateRun c1World (mkPayload "hola" "vi" "zh") servers
      = ("hola", ["https://libretranslate.com/translate"]) ∧
    attemptResult c1World (mkPayload "hola" "vi" "zh")
      "https://translate.argosopentech.com/translate" = some "xin chao" := by
  decide

/-- C1 (amended): an attempt counts as successful exactly when the
backend responds with status 200 and a body that parses; the client
then returns immediately — the `translatedText` field when present,
the original text when the field is absent.  A timeout or network
error, a non-success status, or an unparsable body is swallowed and
the client proceeds to the next endpoint in the list. -/
theorem translate_attempt_policy (w : Payload → String → HttpResult)
    (p : Payload) (url : String) (rest : List String) :
    ((w p url = HttpResult.exn ∨
      (∃ s b, w p url = HttpResult.resp s b ∧ s ≠ 200) ∨
      w p url = HttpResult.resp 200 Body.malformed) →
      translateRun w p (url :: rest)
        = ((translateRun w p rest).1, url :: (translateRun w p rest).2)) ∧
    (∀ tt : Option String, w p url = HttpResult.resp 200 (Body.json tt) →
      translateRun w p (url :: rest) = (tt.getD p.q, [url])) := by
  constructor
  · intro h
    have hnone : attemptResult w p url = none := by
      unfold attemptResult
      rcases h with h | ⟨s, b, h, hs⟩ | h
      · rw [h]
      · rw [h]; simp [hs]
      · rw [h]; simp
    simp [translateRun, hnone]
  · intro tt h
    have hsome : attemptResult w p url = some (tt.getD p.q) := by
      unfold attemptResult
      rw [h]
      simp
    simp [translateRun, hsome]

/-- Witness for `translate_attempt_policy` at a concrete world that
times out on endpoint `"a"`: the failed attempt is skipped, so the
loop over `["a"]` exhausts and yields the degraded marker, having
contacted `"a"`. -/
theorem translate_attempt_policy_witness :
    translateRun (fun _ _ => HttpResult.exn) (mkPayload "t" "vi" "zh") ["a"]
      = (degradedMarker "t", ["a"]) :=
  (translate_attempt_policy (fun _ _ => HttpResult.exn)
    (mkPayload "t" "vi" "zh") "a" []).1 (Or.inl rfl)

/-- C2: when recognition succeeds with (stripped) non-empty text and
every endpoint of the server list fails, the handler still answers a
200 whose `translated` field is the original recognized text prefixed
by the degraded "translation unavailable" marker, with a null `error`
field — the request does not fail. -/
theorem exhausted_endpoints_degraded_200 (src_lang : String)
    (filename : Option String) (transcribe : String → Except String String)
    (w : Payload → String → HttpResult) (cfg : LangCfg) (raw : String)
    (hcfg : List.lookup src_lang LANG_MAP = some cfg)
    (htr : transcribe cfg.whisper = Except.ok raw)
    (hne : pyStrip raw ≠ "")
    (hfail : ∀ url ∈ servers,
      attemptResult w (mkPayload (pyStrip raw) cfg.libre_src cfg.libre_tgt)
        url = none) :
    (recognize src_lang filename transcribe w).1
      = Response.success (pyStrip raw) (degradedMarker (pyStrip raw)) none ∧
    statusOf (recognize src_lang filename transcribe w).1 = 200 := by
  have hrun := translateRun_all_fail w
    (mkPayload (pyStrip raw) cfg.libre_src cfg.libre_tgt) servers hfail
  have : (recognize src_lang filename transcribe w).1
      = Response.success (pyStrip raw) (degradedMarker (pyStrip raw)) none := by
    simp only [mkPayload] at hrun
    simp only [recognize, hcfg]
    simp [tryBody, htr, hne, hrun, exceptTo500, mkPayload, degradedMarker]
  exact ⟨this, by rw [this]; rfl⟩

/-- Witness for `exhausted_endpoints_degraded_200`: concrete request
with tag `"vn"`, recognized text `"hi"`, and a world in which every
post raises. -/
theorem exhausted_endpoints_degraded_200_witness :
    (recognize "vn" none (fun _ => Except.ok "hi")
        (fun _ _ => HttpResult.exn)).1
      = Response.success "hi" (degradedMarker "hi") none :=
  (exhausted_endpoints_degraded_200 "vn" none (fun _ => Except.ok "hi")
    (fun _ _ => HttpResult.exn) ⟨"vi", "vi", "zh"⟩ "hi" (by decide) rfl
    (by decide) (fun url _ => rfl)).1

/-- C3: the failover loop is a strictly sequential trial in list order.
If every endpoint of the leading segment `pre` fails and endpoint `u`
succeeds with value `t`, then the loop over `pre ++ u :: post` returns
`t` and the contacted endpoints are exactly `pre ++ [u]`, in order: the
endpoints of `post`, later in the list than the first success, are
never contacted, and `u` is contacted only after all of `pre`. -/
theorem sequential_first_success (w : Payload → String → HttpResult)
    (p : Payload) (pre post : List String) (u t : String)
    (hfail : ∀ url ∈ pre, attemptResult w p url = none)
    (hsucc : attemptResult w p u = some t) :
    translateRun w p (pre ++ u :: post) = (t, pre ++ [u]) := by
  induction pre with
  | nil => simp [translateRun, hsucc]
  | cons a rest ih =>
    have ha : attemptResult w p a = none := hfail a (by simp)
    have hr := ih (fun url hm => hfail url (by simp [hm]))
    simp [translateRun, ha, hr]

/-- Witness for `sequential_first_success`: first endpoint of `servers`
times out, second answers 200 with a translation, third would also
succeed but is never contacted. -/
theorem sequential_first_success_witness :
    translateRun
      (fun _ url =>
        if url = "https://libretranslate.com/translate" then HttpResult.exn
        else HttpResult.resp 200 (Body.json (some "ok")))
      (mkPayload "hola" "vi" "zh") servers
      = ("ok", ["https://libretranslate.com/translate",
                "https://translate.argosopentech.com/translate"]) :=
  sequential_first_success
    (fun _ url =>
      if url = "https://libretranslate.com/translate" then HttpResult.exn
      else HttpResult.resp 200 (Body.json (some "ok")))
    (mkPayload "hola" "vi" "zh")
    ["https://libretranslate.com/translate"]
    ["https://libretranslate.de/translate"]
    "https://translate.argosopentech.com/translate" "ok"
    (by intro url hm; simp at hm; subst hm; rfl) (by decide)

/-- C4: the translate operation is total — it is a plain function into
`String`, and for every world and input it resolves either to the
degraded marker around the original text (all endpoints failed) or to
the value produced by some endpoint that answered 200 with a parsed
body; no exception/fault outcome exists. -/
theorem translate_total (w : Payload → String → HttpResult)
    (text src tgt : String) :
    translate w text src tgt = degradedMarker text ∨
    ∃ url ∈ servers, ∃ tt : Option String,
      w (mkPayload text src tgt) url = HttpResult.resp 200 (Body.json tt) ∧
      translate w text src tgt = tt.getD text := by
  have key : ∀ ss : List String,
      (translateRun w (mkPayload text src tgt) ss).1 = degradedMarker text ∨
      ∃ url ∈ ss, ∃ tt : Option String,
        w (mkPayload text src tgt) url = HttpResult.resp 200 (Body.json tt) ∧
        (translateRun w (mkPayload text src tgt) ss).1 = tt.getD text := by
    intro ss
    induction ss with
    | nil => exact Or.inl rfl
    | cons u rest ih =>
      cases ha : attemptResult w (mkPayload text src tgt) u with
      | none =>
        rcases ih with h | ⟨url, hm, tt, hw, hv⟩
        · exact Or.inl (by simp [translateRun, ha, h])
        · exact Or.inr ⟨url, by simp [hm], tt, hw,
            by simp [translateRun, ha, hv]⟩
      | some t =>
        rcases attemptResult_eq_some w (mkPayload text src tgt) u t ha with
          ⟨tt, hw, hv⟩
        refine Or.inr ⟨u, by simp, tt, hw, ?_⟩
        simp only [translateRun, ha]
        exact hv
  exact key servers

/-- Closed form of lookup in the two-entry table. -/
theorem lookup_LANG_MAP (tag : String) :
    List.lookup tag LANG_MAP
      = if tag = "vn" then some ⟨"vi", "vi", "zh"⟩
        else if tag = "cn" then some ⟨"zh", "zh", "vi"⟩ else none := by
  by_cases h1 : tag = "vn"
  · simp [LANG_MAP, List.lookup, h1]
  · by_cases h2 : tag = "cn"
    · simp [LANG_MAP, List.lookup, h1, h2]
    · have hb1 : (tag == "vn") = false := beq_eq_false_iff_ne.mpr h1
      have hb2 : (tag == "cn") = false := beq_eq_false_iff_ne.mpr h2
      simp [LANG_MAP, List.lookup, hb1, hb2, h1, h2]

/-- A string built from a non-empty character list is non-empty. -/
theorem mk_cons_ne_empty (a : Char) (l : List Char) :
    String.mk (a :: l) ≠ "" := by
  intro h
  have h2 : (String.mk (a :: l)).data = String.data "" := by rw [h]
  simp at h2

/-- C5: a recognition fault is the only server-fault surface.  The
handler's status is 400 exactly when the tag lookup fails, 500 exactly
when the tag is valid and the transcription capability raises — in
which case the body carries the fault detail — and no status other
than 200, 400, 500 is reachable; in particular no behaviour of the
translation world `w` can produce a failure status. -/
theorem recognition_fault_only_500 (src_lang : String)
    (filename : Option String) (transcribe : String → Except String String)
    (w : Payload → String → HttpResult) :
    (statusOf (recognize src_lang filename transcribe w).1 = 400 ↔
      List.lookup src_lang LANG_MAP = none) ∧
    (statusOf (recognize src_lang filename transcribe w).1 = 500 ↔
      ∃ cfg e, List.lookup src_lang LANG_MAP = some cfg ∧
        transcribe cfg.whisper = Except.error e) ∧
    (∀ cfg e, List.lookup src_lang LANG_MAP = some cfg →
      transcribe cfg.whisper = Except.error e →
      (recognize src_lang filename transcribe w).1
        = Response.httpError 500 e) ∧
    (statusOf (recognize src_lang filename transcribe w).1 = 200 ∨
     statusOf (recognize src_lang filename transcribe w).1 = 400 ∨
     statusOf (recognize src_lang filename transcribe w).1 = 500) := by
  cases hl : List.lookup src_lang LANG_MAP with
  | none =>
    have hres : (recognize src_lang filename transcribe w).1
        = Response.httpError 400 badLangMsg := by
      simp [recognize, hl]
    simp [hres, statusOf, hl]
  | some cfg =>
    cases ht : transcribe cfg.whisper with
    | error e =>
      have hres : (recognize src_lang filename transcribe w).1
          = Response.httpError 500 e := by
        simp [recognize, hl, tryBody, ht, exceptTo500]
      refine ⟨by simp [hres, statusOf, hl], ?_, ?_, by simp [hres, statusOf]⟩
      · rw [hres]
        constructor
        · intro _
          exact ⟨cfg, e, rfl, ht⟩
        · intro _
          rfl
      · intro cfg2 e2 hl2 ht2
        injection hl2 with hc
        subst hc
        rw [ht] at ht2
        injection ht2 with he
        subst he
        exact hres
    | ok raw =>
      by_cases hs : pyStrip raw = ""
      · have hres : (recognize src_lang filename transcribe w).1
            = Response.success "" "" (some noSpeechMsg) := by
          simp [recognize, hl, tryBody, ht, hs, exceptTo500]
        refine ⟨by simp [hres, statusOf, hl], ?_, ?_,
          by simp [hres, statusOf]⟩
        · rw [hres]
          constructor
          · intro h; exact absurd h (by simp [statusOf])
          · rintro ⟨cfg2, e2, hl2, ht2⟩
            injection hl2 with hc
            subst hc
            rw [ht] at ht2
            exact absurd ht2 (by simp)
        · intro cfg2 e2 hl2 ht2
          injection hl2 with hc
          subst hc
          rw [ht] at ht2
          exact absurd ht2 (by simp)
      · have hres : (recognize src_lang filename transcribe w).1
            = Response.success (pyStrip raw)
                (translateRun w
                  (mkPayload (pyStrip raw) cfg.libre_src cfg.libre_tgt)
                  servers).1 none := by
          simp [recognize, hl, tryBody, ht, hs, exceptTo500, mkPayload]
        refine ⟨by simp [hres, statusOf, hl], ?_, ?_,
          by simp [hres, statusOf]⟩
        · rw [hres]
          constructor
          · intro h; exact absurd h (by simp [statusOf])
          · rintro ⟨cfg2, e2, hl2, ht2⟩
            injection hl2 with hc
            subst hc
            rw [ht] at ht2
            exact absurd ht2 (by simp)
        · intro cfg2 e2 hl2 ht2
          injection hl2 with hc
          subst hc
          rw [ht] at ht2
          exact absurd ht2 (by simp)

/-- Witness for `recognition_fault_only_500`: a faulting transcription
on a valid tag yields the 500 carrying the fault detail. -/
theorem recognition_fault_only_500_witness :
    (recognize "vn" none (fun _ => Except.error "boom")
        (fun _ _ => HttpResult.exn)).1 = Response.httpError 500 "boom" :=
  (recognition_fault_only_500 "vn" none (fun _ => Except.error "boom")
    (fun _ _ => HttpResult.exn)).2.2.1 ⟨"vi", "vi", "zh"⟩ "boom" rfl rfl

/-- C6: once a request reaches media acquisition (its tag is in the
table), a temporary file is created, and whatever the transcription
outcome — fault, empty text, or recognized text — and whatever the
translation world does, the `finally` unlink leaves the temporary file
absent when the request completes. -/
theorem temp_always_released (src_lang : String) (filename : Option String)
    (transcribe : String → Except String String)
    (w : Payload → String → HttpResult) (cfg : LangCfg)
    (hcfg : List.lookup src_lang LANG_MAP = some cfg) :
    (recognize src_lang filename transcribe w).2.tempCreated = true ∧
    (recognize src_lang filename transcribe w).2.tempExists = false := by
  simp [recognize, hcfg, acquireTemp, unlinkTemp]

/-- Witness for `temp_always_released`: a faulting transcription still
leaves no temporary file behind. -/
theorem temp_always_released_witness :
    (recognize "vn" none (fun _ => Except.error "boom")
        (fun _ _ => HttpResult.exn)).2.tempExists = false :=
  (temp_always_released "vn" none (fun _ => Except.error "boom")
    (fun _ _ => HttpResult.exn) ⟨"vi", "vi", "zh"⟩ rfl).2

/-- C7: a request whose `src_lang` is neither recognized tag is
answered 400 with the detail message before anything else happens: no
temporary file is created and no suffix is even derived. -/
theorem invalid_tag_400_no_temp (src_lang : String)
    (filename : Option String) (transcribe : String → Except String String)
    (w : Payload → String → HttpResult)
    (h1 : src_lang ≠ "vn") (h2 : src_lang ≠ "cn") :
    (recognize src_lang filename transcribe w).1
      = Response.httpError 400 badLangMsg ∧
    (recognize src_lang filename transcribe w).2.tempCreated = false ∧
    (recognize src_lang filename transcribe w).2.tempSuffix = none := by
  have hl : List.lookup src_lang LANG_MAP = none := by
    rw [lookup_LANG_MAP]
    simp [h1, h2]
  simp [recognize, hl]

/-- Witness for `invalid_tag_400_no_temp` at the concrete tag `"xx"`. -/
theorem invalid_tag_400_no_temp_witness :
    (recognize "xx" none (fun _ => Except.ok "hi")
        (fun _ _ => HttpResult.exn)).1 = Response.httpError 400 badLangMsg :=
  (invalid_tag_400_no_temp "xx" none (fun _ => Except.ok "hi")
    (fun _ _ => HttpResult.exn) (by decide) (by decide)).1

/-- C8: when the stripped recognition output is empty the handler
answers the normal 200 with empty `recognized` and `translated` fields
and the non-null no-speech `error`, and `translate` is never invoked;
conversely, every 200 response has a non-null `error` exactly when its
`recognized` field is empty, in which case the `error` is the
no-speech message and `translated` is empty as well. -/
theorem no_speech_error_field (src_lang : String) (filename : Option String)
    (transcribe : String → Except String String)
    (w : Payload → String → HttpResult) :
    (∀ cfg raw, List.lookup src_lang LANG_MAP = some cfg →
      transcribe cfg.whisper = Except.ok raw → pyStrip raw = "" →
      (recognize src_lang filename transcribe w).1
        = Response.success "" "" (some noSpeechMsg) ∧
      (recognize src_lang filename transcribe w).2.translateCalled
        = false) ∧
    (∀ r t err, (recognize src_lang filename transcribe w).1
        = Response.success r t err →
      (err ≠ none ↔ r = "") ∧
      (r = "" → err = some noSpeechMsg ∧ t = "")) := by
  constructor
  · intro cfg raw hl ht hs
    constructor
    · simp [recognize, hl, tryBody, ht, hs, exceptTo500]
    · simp [recognize, hl, tryBody, ht, hs]
  · intro r t err hres
    cases hl : List.lookup src_lang LANG_MAP with
    | none =>
      rw [show (recognize src_lang filename transcribe w).1
          = Response.httpError 400 badLangMsg by simp [recognize, hl]]
        at hres
      exact absurd hres (by simp)
    | some cfg =>
      cases ht : transcribe cfg.whisper with
      | error e =>
        rw [show (recognize src_lang filename transcribe w).1
            = Response.httpError 500 e by
          simp [recognize, hl, tryBody, ht, exceptTo500]] at hres
        exact absurd hres (by simp)
      | ok raw =>
        by_cases hs : pyStrip raw = ""
        · rw [show (recognize src_lang filename transcribe w).1
              = Response.success "" "" (some noSpeechMsg) by
            simp [recognize, hl, tryBody, ht, hs, exceptTo500]] at hres
          injection hres with hr htr he
          subst hr; subst htr; subst he
          simp
        · rw [show (recognize src_lang filename transcribe w).1
              = Response.success (pyStrip raw)
                  (translateRun w
                    (mkPayload (pyStrip raw) cfg.libre_src cfg.libre_tgt)
                    servers).1 none by
            simp [recognize, hl, tryBody, ht, hs, exceptTo500, mkPayload]]
            at hres
          injection hres with hr htr he
          subst hr; subst htr; subst he
          simp [hs]

/-- Witness for `no_speech_error_field`: a whitespace-only
transcription yields the empty-empty-error 200. -/
theorem no_speech_error_field_witness :
    (recognize "vn" none (fun _ => Except.ok " ")
        (fun _ _ => HttpResult.exn)).1
      = Response.success "" "" (some noSpeechMsg) :=
  ((no_speech_error_field "vn" none (fun _ => Except.ok " ")
      (fun _ _ => HttpResult.exn)).1 ⟨"vi", "vi", "zh"⟩ " " rfl rfl
    (by decide)).1

/-- C9: the language table is the fixed two-tag mapping: its key list
is exactly `["vn", "cn"]`, every profile's three codes are non-empty,
and lookup succeeds exactly on the tags of that closed set, failing
(`none`, which the handler answers as the unknown-tag 400) outside
it. -/
theorem lang_table_closed :
    LANG_MAP.map Prod.fst = ["vn", "cn"] ∧
    (∀ pr ∈ LANG_MAP, pr.2.whisper ≠ "" ∧ pr.2.libre_src ≠ "" ∧
      pr.2.libre_tgt ≠ "") ∧
    (∀ tag : String,
      ((List.lookup tag LANG_MAP).isSome ↔ tag = "vn" ∨ tag = "cn")) := by
  refine ⟨by decide, by decide, ?_⟩
  intro tag
  rw [lookup_LANG_MAP]
  by_cases h1 : tag = "vn"
  · simp [h1]
  · by_cases h2 : tag = "cn" <;> simp [h1, h2]

/-- Witness for `lang_table_closed`: lookup succeeds on `"vn"`. -/
theorem lang_table_closed_witness : (List.lookup "vn" LANG_MAP).isSome :=
  (lang_table_closed.2.2 "vn").mpr (Or.inl rfl)

/-- C10: the temporary-file suffix is never empty: it is the extension
`os.path.splitext` finds in the effective upload filename whenever
that extension is non-empty, and defaults to `".wav"` whenever the
filename is missing, empty, or carries no extension. -/
theorem tmp_suffix_derivation (filename : Option String) :
    tmpSuffix filename ≠ "" ∧
    (filename = none → tmpSuffix filename = ".wav") ∧
    (filename = some "" → tmpSuffix filename = ".wav") ∧
    (∀ s, filename = some s → s ≠ "" →
      ((splitext s.toList).2 = [] → tmpSuffix filename = ".wav") ∧
      ((splitext s.toList).2 ≠ [] →
        tmpSuffix filename = String.mk (splitext s.toList).2)) := by
  refine ⟨?_, ?_, ?_, ?_⟩
  · simp only [tmpSuffix]
    cases hext : (splitext (effName filename).toList).2 with
    | nil => simp
    | cons a l => simpa using mk_cons_ne_empty a l
  · intro h; subst h; decide
  · intro h; subst h; decide
  · intro s h hs
    subst h
    have heff : effName (some s) = s := by simp [effName, hs]
    constructor
    · intro hext
      have hext2 : (splitext s.data).2 = [] := hext
      simp [tmpSuffix, heff, hext, hext2]
    · intro hext
      cases hc : (splitext s.toList).2 with
      | nil => exact absurd hc hext
      | cons a l =>
        have hc2 : (splitext s.data).2 = a :: l := hc
        simp [tmpSuffix, heff, hc, hc2]

/-- Witness for `tmp_suffix_derivation`: the upload `"voice.mp3"`
yields the suffix `".mp3"`. -/
theorem tmp_suffix_derivation_witness : tmpSuffix (some "voice.mp3") = ".mp3" :=
  ((tmp_suffix_derivation (some "voice.mp3")).2.2.2 "voice.mp3" rfl
    (by decide)).2 (by decide)

end VTranslator
